import Mathlib

/-!
Shallow embedding of the layout/geometry engine of the compositing editor
(resources/js/pages/editor.tsx): named frames on a fixed-size canvas, image
fitting under cover/contain, frame-aligned clip regions, grid snapping, and
the versioned template serializer.

Numbers are modelled as rationals (the source computes with JS doubles);
JS Math.round is modelled by its exact rule on the reals, floor (x + 1/2).
Documents handled by the deserializer are modelled by a JSON-like value type
with explicit undefined and non-finite-number values, so that the source's
dynamic shape dispatch can be reproduced faithfully.
-/

namespace Editor

/-- JSON-like values as seen by the deserializer (`rebuildFromTemplate`
receives `unknown`).  The constructor `jundefined` is the result of reading an
absent property; `jnan` stands for a non-finite number (NaN or an infinity),
which JS `typeof` still reports as a number. -/
inductive JVal where
  | jundefined
  | jnull
  | jbool (b : Bool)
  | jnum (q : ℚ)
  | jnan
  | jstr (s : String)
  | jarr (elems : List JVal)
  | jobj (fields : List (String × JVal))

/-- Property access `o[k]`: objects yield the stored value (first binding of
the key, as produced by JSON parsing without duplicate keys), everything else
yields `undefined`.  The source only dereferences possibly-null values
through the optional-chaining operator, which also yields `undefined`. -/
def jProp (v : JVal) (k : String) : JVal :=
  match v with
  | .jobj fields => (fields.lookup k).getD .jundefined
  | _ => .jundefined

/-- Value of a list of decimal digit characters. -/
def natOfDigits (cs : List Char) : ℕ :=
  cs.foldl (fun acc c => acc * 10 + (c.toNat - 48)) 0

/-- Value of one digit character in the given base (2, 8 or 16), none when
the character is no digit of that base. -/
def digitValBase (b : ℕ) (c : Char) : Option ℕ :=
  let v :=
    if c.isDigit then some (c.toNat - 48)
    else if 'a' ≤ c ∧ c ≤ 'f' then some (c.toNat - 87)
    else if 'A' ≤ c ∧ c ≤ 'F' then some (c.toNat - 55)
    else none
  match v with
  | some d => if d < b then some d else none
  | none => none

/-- Value of a digit string in the given base; none when it is empty or
contains a character that is no digit of that base. -/
def natOfDigitsBase (b : ℕ) (cs : List Char) : Option ℕ :=
  if cs.isEmpty then none
  else cs.foldl (fun acc c =>
    match acc, digitValBase b c with
    | some n, some d => some (n * b + d)
    | _, _ => none) (some 0)

/-- An unsigned decimal literal of JS Number's string grammar
(StrUnsignedDecimalLiteral without the Infinity form): decimal digits, an
optional point with optional fraction digits — at least one mantissa digit
overall — and an optional e/E exponent part with an optional sign and
mandatory digits; the whole input must be consumed. -/
def parseUnsignedDec (cs : List Char) : Option ℚ :=
  let intPart := cs.takeWhile (·.isDigit)
  let rest1 := cs.dropWhile (·.isDigit)
  let fracPart := match rest1 with
    | '.' :: t => t.takeWhile (·.isDigit)
    | _ => []
  let rest2 := match rest1 with
    | '.' :: t => t.dropWhile (·.isDigit)
    | _ => rest1
  if intPart.isEmpty && fracPart.isEmpty then none
  else
    let mant : ℚ := (natOfDigits intPart : ℚ) + (natOfDigits fracPart : ℚ) / 10 ^ fracPart.length
    match rest2 with
    | [] => some mant
    | e :: t =>
        if e == 'e' || e == 'E' then
          let neg := match t with
            | '-' :: _ => true
            | _ => false
          let ds := match t with
            | '+' :: t2 => t2
            | '-' :: t2 => t2
            | _ => t
          if ds.isEmpty || !ds.all (·.isDigit) then none
          else if neg then some (mant / 10 ^ natOfDigits ds)
          else some (mant * 10 ^ natOfDigits ds)
        else none

/-- JS `Number` applied to a string (the StringNumericLiteral grammar): a
whitespace-only string is 0; a 0x/0X, 0o/0O or 0b/0B prefix introduces an
unsigned integer of that base (no sign, point or exponent allowed there);
otherwise an optionally signed decimal literal with optional fraction and
exponent.  Everything else yields none — correctly so even for the
Infinity forms, since none stands for a result on which Number.isFinite
fails.  The rational model carries no double overflow, in line with this
file's doubles-as-rationals convention. -/
def jsStringToNumber (s : String) : Option ℚ :=
  match s.trim.toList with
  | [] => some 0
  | '0' :: x :: t =>
      if x == 'x' || x == 'X' then (natOfDigitsBase 16 t).map (fun n => (n : ℚ))
      else if x == 'o' || x == 'O' then (natOfDigitsBase 8 t).map (fun n => (n : ℚ))
      else if x == 'b' || x == 'B' then (natOfDigitsBase 2 t).map (fun n => (n : ℚ))
      else parseUnsignedDec ('0' :: x :: t)
  | '+' :: rest => parseUnsignedDec rest
  | '-' :: rest => (parseUnsignedDec rest).map (fun q => -q)
  | t => parseUnsignedDec t

/-- JS `Number(x)` on document values; `none` means a result on which
`Number.isFinite` fails (NaN or an infinity).  `Number(undefined)` is NaN,
`Number(null)` is 0, booleans coerce to 0 and 1, plain objects stringify to
a bracketed word and give NaN.  An array coerces through its joined string
form: an empty array joins to the empty string (0), an array of two or more
elements contains a comma (NaN), and a singleton joins to the string form
of its element — the words true/false for a boolean (NaN), the empty
string for undefined or null (0), the string itself for a string, the join
of the inner array for an array, and for a number its printed form, which
JS re-parses to the identical value; so recursing into the element is
exact once booleans and undefined are special-cased. -/
def jsToNumber : JVal → Option ℚ
  | .jundefined => none
  | .jnull => some 0
  | .jbool b => some (if b then 1 else 0)
  | .jnum q => some q
  | .jnan => none
  | .jstr s => jsStringToNumber s
  | .jarr [] => some 0
  | .jarr [.jbool _] => none
  | .jarr [.jundefined] => some 0
  | .jarr [x] => jsToNumber x
  | .jarr (_ :: _ :: _) => none
  | .jobj _ => none

/-- The test `typeof v === 'object' && v !== null` (arrays are objects, null
has object typeof but is excluded).  The same class is exactly the truthy
values of object typeof, so it also models the `el && typeof el === 'object'`
tests of the source. -/
def isObjectNonNull : JVal → Bool
  | .jobj _ => true
  | .jarr _ => true
  | _ => false

/-- The test `typeof v === 'string' ? v : null`. -/
def asString : JVal → Option String
  | .jstr s => some s
  | _ => none

/-- The test `Array.isArray v`. -/
def asArray : JVal → Option (List JVal)
  | .jarr xs => some xs
  | _ => none

/-- The DB branches of the deserializer read `canvas_width` and
`canvas_height` through an unchecked TS cast with no `Number()` coercion; a
non-numeric value flows through as-is and gives the canvas an undefined
size.  That corner is modelled as 0; no claim below depends on it. -/
def rawNum : JVal → ℚ
  | .jnum q => q
  | _ => 0

/-- Fit policy carried in a frame's metadata. -/
inductive FitPolicy where
  | cover
  | contain
deriving DecidableEq

/-- Frame metadata stored in the rect's `data` slot (the `type: 'frame'` tag
is implicit in the Lean type). -/
structure FrameData where
  frameId : String
  fit : FitPolicy
  name : String
deriving DecidableEq

/-- Geometric state of a Fabric `Rect` used as a frame: position, unscaled
base size, scale factors and corner radii.  Paint-only styling (fill,
stroke, dash pattern) carries no geometry and is omitted.  Fabric reports
the rendered size as base size times scale (the spec's visual size). -/
structure Rect where
  left : ℚ
  top : ℚ
  width : ℚ
  height : ℚ
  scaleX : ℚ := 1
  scaleY : ℚ := 1
  rx : ℚ := 0
  ry : ℚ := 0
deriving DecidableEq

/-- Fabric `getScaledWidth`: the rendered (visual) width. -/
def Rect.getScaledWidth (r : Rect) : ℚ := r.width * r.scaleX

/-- Fabric `getScaledHeight`: the rendered (visual) height. -/
def Rect.getScaledHeight (r : Rect) : ℚ := r.height * r.scaleY

/-- Horizontal center of a frame's visual box; frames are created with the
Fabric default origin (left, top), so the box spans from `left`. -/
def Rect.centerX (r : Rect) : ℚ := r.left + r.getScaledWidth / 2

/-- Vertical center of a frame's visual box. -/
def Rect.centerY (r : Rect) : ℚ := r.top + r.getScaledHeight / 2

/-- The clip rectangle installed on a bound image by `ensureImageClip`. -/
structure ClipRect where
  left : ℚ
  top : ℚ
  width : ℚ
  height : ℚ
  rx : ℚ
  ry : ℚ
  absolutePositioned : Bool
  originX : String
  originY : String
deriving DecidableEq

/-- A Fabric image: native pixel size (`none` while unknown), transform,
origin anchors, optional clip path, and the `data.frameOf` back-reference to
its frame. -/
structure FImage where
  width : Option ℚ := none
  height : Option ℚ := none
  scaleX : ℚ := 1
  scaleY : ℚ := 1
  left : ℚ := 0
  top : ℚ := 0
  originX : String := "left"
  originY : String := "top"
  clipPath : Option ClipRect := none
  frameOf : Option String := none
deriving DecidableEq

/-- Horizontal center of the image's rendered box under Fabric origin
semantics: with origin center the stored position is the center, with the
default left origin the center sits half a scaled width to the right. -/
def FImage.centerX (img : FImage) : ℚ :=
  if img.originX = "center" then img.left
  else img.left + (img.width.getD 0) * img.scaleX / 2

/-- Vertical center of the image's rendered box. -/
def FImage.centerY (img : FImage) : ℚ :=
  if img.originY = "center" then img.top
  else img.top + (img.height.getD 0) * img.scaleY / 2

/-- The function `fitImageToFrame` of editor.tsx: computes the uniform
cover/contain scale against the frame's visual box and centers the image
over the frame; returns the image unchanged when a native dimension is zero
or unknown (the source reads `img.width ?? 0` and early-returns when it is
falsy). -/
def fitImageToFrame (img : FImage) (frame : Rect) (fit : FitPolicy) : FImage :=
  let fW := frame.getScaledWidth
  let fH := frame.getScaledHeight
  let iW := img.width.getD 0
  let iH := img.height.getD 0
  if iW = 0 ∨ iH = 0 then img
  else
    let sx := fW / iW
    let sy := fH / iH
    let scale := match fit with
      | .cover => max sx sy
      | .contain => min sx sy
    { img with scaleX := scale, scaleY := scale,
               originX := "center", originY := "center",
               left := frame.left + fW / 2, top := frame.top + fH / 2 }

/-- The function `ensureImageClip`: (re)build the image's clip rect from the
frame's current box, absolutely positioned in canvas coordinates, with the
frame's corner radii.  The source reuses an existing rect-typed clip object,
but overwrites every field, so the result depends only on the frame. -/
def ensureImageClip (img : FImage) (frame : Rect) : FImage :=
  let clip : ClipRect :=
    { left := frame.left, top := frame.top,
      width := frame.getScaledWidth, height := frame.getScaledHeight,
      rx := frame.rx, ry := frame.ry,
      absolutePositioned := true, originX := "left", originY := "top" }
  { img with clipPath := some clip }

/-- Body of the per-image loop of `updateImagesForFrame`: re-clip, then
either re-fit (fit policy reapplied against the new box) or merely re-center
the image over the frame. -/
def updateOneImage (frame : Rect) (d : FrameData) (refit : Bool)
    (img : FImage) : FImage :=
  let img1 := ensureImageClip img frame
  if refit then fitImageToFrame img1 frame d.fit
  else { img1 with left := frame.left + frame.getScaledWidth / 2,
                   top := frame.top + frame.getScaledHeight / 2 }

/-- The function `updateImagesForFrame` acting on the canvas's image list:
every image whose `data.frameOf` matches the frame's id is re-clipped and
re-fitted or re-centered; other images are untouched. -/
def updateImagesForFrame (frame : Rect) (d : FrameData) (refit : Bool)
    (imgs : List FImage) : List FImage :=
  imgs.map fun img =>
    if img.frameOf = some d.frameId then updateOneImage frame d refit img else img

/-- Grid unit, 20 canvas units (the constant GRID of the source). -/
def GRID : ℚ := 20

/-- JS `Math.round`: round half toward positive infinity, floor (x + 1/2).
Stated with the executable `Rat.floor`; the lemma `jsRound_eq_floor` below
identifies it with the mathematical floor. -/
def jsRound (q : ℚ) : ℤ := Rat.floor (q + 1/2)

/-- The function `snapToGrid`: quantize position to the grid, quantize the
visual (scaled) size to the grid with a one-grid-unit floor, and re-derive
the scale factors from the unscaled base size; a scale factor is left
unchanged when its base dimension is zero (falsy), guarding the division. -/
def snapToGrid (r : Rect) : Rect :=
  let snappedLeft := (jsRound (r.left / GRID) : ℚ) * GRID
  let snappedTop := (jsRound (r.top / GRID) : ℚ) * GRID
  let snappedW := max GRID ((jsRound (r.getScaledWidth / GRID) : ℚ) * GRID)
  let snappedH := max GRID ((jsRound (r.getScaledHeight / GRID) : ℚ) * GRID)
  { r with left := snappedLeft, top := snappedTop,
           scaleX := if r.width = 0 then r.scaleX else snappedW / r.width,
           scaleY := if r.height = 0 then r.scaleY else snappedH / r.height }

/-- The function `commitSize` (direct W/H field edit): a provided value
(`none` stands for a blank or non-finite input, the `Number.isFinite`
guard) is clamped to at least 1 and converted back to a scale factor
against the base size; with a zero base the scale factor is kept. -/
def commitSize (r : Rect) (nextW nextH : Option ℚ) : Rect :=
  let scaledW := match nextW with
    | some w => max 1 w
    | none => r.getScaledWidth
  let scaledH := match nextH with
    | some h => max 1 h
    | none => r.getScaledHeight
  { r with scaleX := if r.width = 0 then r.scaleX else scaledW / r.width,
           scaleY := if r.height = 0 then r.scaleY else scaledH / r.height }

/-- The frame-creation part of `onAddFrame`: the default 400 by 300 frame,
centered on the canvas and grid-snapped, fit policy cover, named after the
number of frame objects currently on the canvas plus one.  The random
`frameId` produced by `newId()` is passed in. -/
def onAddFrame (canvasW canvasH : ℚ) (frameCount : ℕ) (id : String) :
    Rect × FrameData :=
  let width : ℚ := 400
  let height : ℚ := 300
  let left := (jsRound ((canvasW / 2 - width / 2) / GRID) : ℚ) * GRID
  let top := (jsRound ((canvasH / 2 - height / 2) / GRID) : ℚ) * GRID
  ({ left := left, top := top, width := width, height := height,
     scaleX := 1, scaleY := 1, rx := 4, ry := 4 },
   { frameId := id, fit := .cover, name := "Frame " ++ toString (frameCount + 1) })

/-- The live arrangement: canvas size, background source (the `data.url`
attached by `setBackgroundCover`, read back by `getCanvasBackgroundUrl`),
frames in z-order, and the frame-bound images on the canvas. -/
structure EditorState where
  canvasW : ℚ
  canvasH : ℚ
  background : Option String
  frames : List (Rect × FrameData)
  images : List FImage
deriving DecidableEq

/-- The parsed template (local `t` of `rebuildFromTemplate`): canvas size,
background source, and the raw frame records — the source casts the records
with no per-record validation, so they stay raw JSON values here. -/
@[ext] structure TemplateV1 where
  canvasW : ℚ
  canvasH : ℚ
  background_url : Option String
  frames : List JVal

/-- String form of a fit policy as stored in documents. -/
def fitName : FitPolicy → String
  | .cover => "cover"
  | .contain => "contain"

/-- One frame record emitted by `serializeTemplate`: geometry is rounded to
whole numbers with Math.round, `w` and `h` are the visual (scaled) sizes,
id, fit and name come from the frame's metadata. -/
def serializeFrameRec (f : Rect × FrameData) : JVal :=
  .jobj [("id", .jstr f.2.frameId),
         ("x", .jnum (jsRound f.1.left : ℚ)),
         ("y", .jnum (jsRound f.1.top : ℚ)),
         ("w", .jnum (jsRound f.1.getScaledWidth : ℚ)),
         ("h", .jnum (jsRound f.1.getScaledHeight : ℚ)),
         ("fit", .jstr (fitName f.2.fit)),
         ("name", .jstr f.2.name)]

/-- The function `serializeTemplate`, as the JSON document that is posted:
version 1, canvas size, background url or null, frame records in z-order. -/
def serializeTemplate (st : EditorState) : JVal :=
  .jobj [("version", .jnum 1),
         ("canvas", .jobj [("width", .jnum st.canvasW), ("height", .jnum st.canvasH)]),
         ("background_url", match st.background with
           | some u => .jstr u
           | none => .jnull),
         ("frames", .jarr (st.frames.map serializeFrameRec))]

/-- The shape dispatch of `rebuildFromTemplate` (the computation of its
local `t`); `none` is the "Unsupported template format" outcome.  Branch
order as in the source:
first, a value of object typeof other than null (arrays included) whose
`version` property is of number typeof: accepted only when the version
equals 1, with canvas dimensions Number()-coerced and non-finite results
defaulting to 1200 and 800, a non-string `background_url` becoming null and
a non-array `frames` becoming the empty list;
otherwise, such a value whose `data` property is a non-null object: its
`data.elements` may be an array (taken as the frames, canvas size from
`data.canvas_width` and `data.canvas_height`, background null) or a truthy
object carrying `frames`, `background_url` and `canvas`, the canvas falling
back per-axis to the `data` fields when the nested coercion is not finite;
everything else is unsupported.  A `version` property present but not of
number typeof falls through to the `data` branch, exactly like the source's
else-if chain. -/
def parseTemplate (tpl : JVal) : Option TemplateV1 :=
  if isObjectNonNull tpl then
    match jProp tpl "version" with
    | .jnum v =>
        if v = 1 then
          some { canvasW := (jsToNumber (jProp (jProp tpl "canvas") "width")).getD 1200,
                 canvasH := (jsToNumber (jProp (jProp tpl "canvas") "height")).getD 800,
                 background_url := asString (jProp tpl "background_url"),
                 frames := (asArray (jProp tpl "frames")).getD [] }
        else none
    | .jnan => none
    | _ =>
        if isObjectNonNull (jProp tpl "data") then
          let data := jProp tpl "data"
          match jProp data "elements" with
          | .jarr el =>
              some { canvasW := rawNum (jProp data "canvas_width"),
                     canvasH := rawNum (jProp data "canvas_height"),
                     background_url := none,
                     frames := el }
          | el =>
              if isObjectNonNull el then
                let c := if isObjectNonNull (jProp el "canvas") then jProp el "canvas"
                         else .jobj []
                some { canvasW := (jsToNumber (jProp c "width")).getD
                         (rawNum (jProp data "canvas_width")),
                       canvasH := (jsToNumber (jProp c "height")).getD
                         (rawNum (jProp data "canvas_height")),
                       background_url := asString (jProp el "background_url"),
                       frames := (asArray (jProp el "frames")).getD [] }
              else none
        else none
  else none

/-- Frame reconstruction of `rebuildFromTemplate`'s loop for a well-formed
record: `new Rect` with the record's geometry, the creation-time styling
(corner radius 4, scale 1), and the record's id, fit and name as metadata.
The source casts records without validating them, so a malformed record
still yields a Rect object, but one whose geometry fields are `undefined`;
such degenerate frames carry no geometry any claim speaks about and are
modelled as absent (`none`). -/
def readFrameRec (j : JVal) : Option (Rect × FrameData) :=
  match jProp j "id", jProp j "x", jProp j "y", jProp j "w", jProp j "h",
        jProp j "fit", jProp j "name" with
  | .jstr id, .jnum x, .jnum y, .jnum w, .jnum h, .jstr fitS, .jstr name =>
      if fitS = "cover" ∨ fitS = "contain" then
        some ({ left := x, top := y, width := w, height := h,
                scaleX := 1, scaleY := 1, rx := 4, ry := 4 },
              { frameId := id,
                fit := if fitS = "cover" then .cover else .contain,
                name := name })
      else none
  | _, _, _, _, _, _, _ => none

/-- Outcome of a template load: success, or the alerted "Unsupported
template format" abort. -/
inductive LoadOutcome where
  | ok
  | unsupportedFormat
deriving DecidableEq

/-- State replacement performed by a successful `rebuildFromTemplate`:
resize the canvas, clear every object (frames and images) and the
background, rebuild one frame per record, and install the background from
the stored url.  The asynchronous background fetch is modelled at its
success; a failed fetch is logged and leaves the canvas backgroundless in
the source, which no claim below depends on. -/
def applyTemplate (t : TemplateV1) : EditorState :=
  { canvasW := t.canvasW, canvasH := t.canvasH,
    background := t.background_url,
    frames := t.frames.filterMap readFrameRec,
    images := [] }

/-- The function `rebuildFromTemplate`: parse the document and either leave
the current state exactly as it is (alerting "Unsupported template format")
or replace it wholesale. -/
def rebuildFromTemplate (st : EditorState) (tpl : JVal) :
    EditorState × LoadOutcome :=
  match parseTemplate tpl with
  | none => (st, .unsupportedFormat)
  | some t => (applyTemplate t, .ok)

/-- The load flow `onLoadTemplate` after a successful fetch: the source
calls `clearImages()` on the canvas before parsing the fetched document,
then hands the document to `rebuildFromTemplate`. -/
def onLoadTemplate (st : EditorState) (doc : JVal) :
    EditorState × LoadOutcome :=
  rebuildFromTemplate { st with images := [] } doc

/-- A 200 by 100 image with known native dimensions (the worked example of
the spec). -/
def imgEx : FImage := { width := some 200, height := some 100 }

/-- An image whose native width is still unknown. -/
def imgNoDims : FImage := { height := some 100 }

/-- The default 400 by 300 frame at the default position on a 1200 by 800
canvas. -/
def frameDefault : Rect :=
  { left := 400, top := 260, width := 400, height := 300, rx := 4, ry := 4 }

/-- A frame at an unsnapped position, for concrete snap evaluations. -/
def rectEx : Rect :=
  { left := 33, top := 47, width := 400, height := 300, rx := 4, ry := 4 }

/-- Metadata of the concrete frame f1. -/
def dEx : FrameData := { frameId := "f1", fit := .cover, name := "Frame 1" }

/-- An image bound to frame f1. -/
def imgBoundEx : FImage :=
  { width := some 50, height := some 40, frameOf := some "f1" }

/-- The image obtained by updating frame f1's single bound image. -/
def imgOutEx : FImage := updateOneImage rectEx dEx true imgBoundEx

/-- Empty arrangement on the default canvas. -/
def stEmpty : EditorState :=
  { canvasW := 1200, canvasH := 800, background := none, frames := [], images := [] }

/-- Arrangement whose one frame sits at the fractional position 1/2. -/
def stHalf : EditorState :=
  { canvasW := 1200, canvasH := 800, background := none,
    frames := [({ left := 1/2, top := 0, width := 400, height := 300,
                  rx := 4, ry := 4 }, dEx)],
    images := [] }

/-- Arrangement with integral geometry, a background, and one frame. -/
def stInt : EditorState :=
  { canvasW := 1200, canvasH := 800, background := some "bg.png",
    frames := [({ left := 40, top := 60, width := 400, height := 300,
                  rx := 4, ry := 4 },
                { frameId := "f1", fit := .contain, name := "Frame 1" })],
    images := [] }

/-- Arrangement holding one frame and one bound image. -/
def stWithImage : EditorState :=
  { canvasW := 1200, canvasH := 800, background := none,
    frames := [(rectEx, dEx)], images := [imgBoundEx] }

/-- A well-formed frame record as a JSON value. -/
def goodRecJ : JVal :=
  .jobj [("id", .jstr "a"), ("x", .jnum 0), ("y", .jnum 20), ("w", .jnum 400),
         ("h", .jnum 300), ("fit", .jstr "cover"), ("name", .jstr "Frame 1")]

/-- A DB-envelope document: frames as a flat array under data.elements. -/
def dbDoc (w h : ℚ) (el : List JVal) : JVal :=
  .jobj [("data", .jobj [("canvas_width", .jnum w), ("canvas_height", .jnum h),
                          ("elements", .jarr el)])]

/-- A top-level flat frame-array document, with no wrapper object. -/
def flatArrayDoc : JVal := .jarr [goodRecJ]

/-- The executable rounding agrees with the mathematical floor of x + 1/2. -/
theorem jsRound_eq_floor (q : ℚ) : jsRound q = ⌊q + 1/2⌋ := by
  unfold jsRound
  rw [Rat.floor_def' (q + 1/2), @Rat.floor_def (q + 1/2)]

/-- JS Math.round of an integer is that integer. -/
theorem jsRound_intCast (n : ℤ) : jsRound (n : ℚ) = n := by
  rw [jsRound_eq_floor, Int.floor_int_add]
  have h : ⌊(1/2 : ℚ)⌋ = 0 := by
    rw [Int.floor_eq_zero_iff, Set.mem_Ico]
    norm_num
  rw [h, add_zero]

/-- JS Math.round is the identity on rationals with denominator one. -/
theorem jsRound_den_one (q : ℚ) (h : q.den = 1) : (jsRound q : ℚ) = q := by
  have hq : q = ((q.num : ℤ) : ℚ) := by
    have h2 := Rat.num_div_den q
    rw [h] at h2
    simp at h2
    exact h2.symm
  rw [hq, jsRound_intCast]

/-- Visual width after a snap, for a frame with nonzero base width. -/
theorem snapToGrid_getScaledWidth (r : Rect) (h : r.width ≠ 0) :
    (snapToGrid r).getScaledWidth =
      max GRID ((jsRound (r.getScaledWidth / GRID) : ℚ) * GRID) := by
  show r.width * (if r.width = 0 then r.scaleX
    else max GRID ((jsRound (r.getScaledWidth / GRID) : ℚ) * GRID) / r.width) = _
  rw [if_neg h, mul_comm, div_mul_cancel₀ _ h]

/-- Visual height after a snap, for a frame with nonzero base height. -/
theorem snapToGrid_getScaledHeight (r : Rect) (h : r.height ≠ 0) :
    (snapToGrid r).getScaledHeight =
      max GRID ((jsRound (r.getScaledHeight / GRID) : ℚ) * GRID) := by
  show r.height * (if r.height = 0 then r.scaleY
    else max GRID ((jsRound (r.getScaledHeight / GRID) : ℚ) * GRID) / r.height) = _
  rw [if_neg h, mul_comm, div_mul_cancel₀ _ h]

/-- Visual width after a direct width edit, for nonzero base width. -/
theorem commitSize_getScaledWidth (r : Rect) (w : ℚ) (h : r.width ≠ 0) :
    (commitSize r (some w) none).getScaledWidth = max 1 w := by
  show r.width * (if r.width = 0 then r.scaleX else max 1 w / r.width) = _
  rw [if_neg h, mul_comm, div_mul_cancel₀ _ h]

/-- Visual height after a direct height edit, for nonzero base height. -/
theorem commitSize_getScaledHeight (r : Rect) (h : ℚ) (hh : r.height ≠ 0) :
    (commitSize r none (some h)).getScaledHeight = max 1 h := by
  show r.height * (if r.height = 0 then r.scaleY else max 1 h / r.height) = _
  rw [if_neg hh, mul_comm, div_mul_cancel₀ _ hh]

/-- C1: for every image with positive native size (iw, ih) and every frame
with positive visual size, `fitImageToFrame` assigns the same uniform scale
to both axes — max of the ratios under cover, min under contain — and
afterwards the image's center coincides with the center of the frame's
visual box. -/
theorem C1_fit_uniform_scale_center (img : FImage) (frame : Rect)
    (p : FitPolicy) (iw ih : ℚ)
    (hw : img.width = some iw) (hh : img.height = some ih)
    (hiw : 0 < iw) (hih : 0 < ih)
    (htw : 0 < frame.getScaledWidth) (hth : 0 < frame.getScaledHeight) :
    (fitImageToFrame img frame p).scaleX = (fitImageToFrame img frame p).scaleY ∧
    (fitImageToFrame img frame p).scaleX =
      (match p with
        | .cover => max (frame.getScaledWidth / iw) (frame.getScaledHeight / ih)
        | .contain => min (frame.getScaledWidth / iw) (frame.getScaledHeight / ih)) ∧
    (fitImageToFrame img frame p).centerX = frame.centerX ∧
    (fitImageToFrame img frame p).centerY = frame.centerY := by
  have hiw0 : iw ≠ 0 := ne_of_gt hiw
  have hih0 : ih ≠ 0 := ne_of_gt hih
  cases p <;>
    simp [fitImageToFrame, hw, hh, hiw0, hih0, FImage.centerX, FImage.centerY,
          Rect.centerX, Rect.centerY]

/-- C1 witness: fitting the 200 by 100 image into a 400 by 300 frame under
cover gives the uniform scale max(2, 3) and centers it on the frame. -/
theorem C1_fit_uniform_scale_center_witness :
    (fitImageToFrame imgEx frameDefault .cover).scaleX =
      (fitImageToFrame imgEx frameDefault .cover).scaleY ∧
    (fitImageToFrame imgEx frameDefault .cover).scaleX =
      max (frameDefault.getScaledWidth / 200) (frameDefault.getScaledHeight / 100) ∧
    (fitImageToFrame imgEx frameDefault .cover).centerX = frameDefault.centerX ∧
    (fitImageToFrame imgEx frameDefault .cover).centerY = frameDefault.centerY :=
  C1_fit_uniform_scale_center imgEx frameDefault .cover 200 100 rfl rfl
    (by norm_num) (by norm_num)
    (by norm_num [frameDefault, Rect.getScaledWidth])
    (by norm_num [frameDefault, Rect.getScaledHeight])

/-- C2: on edit completion the snapper sets position to round(position/20)
times 20 per axis, sets the visual size to max(20, round(visualSize/20)
times 20) per axis (for a nonzero base dimension), and recomputes each
scale factor as the snapped visual size divided by the base size, leaving
it unchanged when the base dimension is zero. -/
theorem C2_snapToGrid_spec (r : Rect) :
    (snapToGrid r).left = (jsRound (r.left / GRID) : ℚ) * GRID ∧
    (snapToGrid r).top = (jsRound (r.top / GRID) : ℚ) * GRID ∧
    (snapToGrid r).scaleX = (if r.width = 0 then r.scaleX
      else max GRID ((jsRound (r.getScaledWidth / GRID) : ℚ) * GRID) / r.width) ∧
    (snapToGrid r).scaleY = (if r.height = 0 then r.scaleY
      else max GRID ((jsRound (r.getScaledHeight / GRID) : ℚ) * GRID) / r.height) ∧
    (r.width ≠ 0 → (snapToGrid r).getScaledWidth =
      max GRID ((jsRound (r.getScaledWidth / GRID) : ℚ) * GRID)) ∧
    (r.height ≠ 0 → (snapToGrid r).getScaledHeight =
      max GRID ((jsRound (r.getScaledHeight / GRID) : ℚ) * GRID)) :=
  ⟨rfl, rfl, rfl, rfl,
   fun h => snapToGrid_getScaledWidth r h,
   fun h => snapToGrid_getScaledHeight r h⟩

/-- C2 witness: the concrete frame at (33, 47) with visual size 400 by 300
snaps to (40, 40) keeping its grid-multiple visual size. -/
theorem C2_snapToGrid_spec_witness :
    (snapToGrid rectEx).left = 40 ∧ (snapToGrid rectEx).top = 40 ∧
    (snapToGrid rectEx).getScaledWidth = 400 ∧
    (snapToGrid rectEx).getScaledHeight = 300 := by
  have h := C2_snapToGrid_spec rectEx
  refine ⟨?_, ?_, ?_, ?_⟩
  · rw [h.1]; norm_num [rectEx, GRID, jsRound_eq_floor]
  · rw [h.2.1]; norm_num [rectEx, GRID, jsRound_eq_floor]
  · rw [h.2.2.2.2.1 (by norm_num [rectEx])]
    norm_num [rectEx, GRID, Rect.getScaledWidth, jsRound_eq_floor]
  · rw [h.2.2.2.2.2 (by norm_num [rectEx])]
    norm_num [rectEx, GRID, Rect.getScaledHeight, jsRound_eq_floor]

/-- C6 counterexample: with an unknown native width, `fitImageToFrame`
returns successfully with the image unchanged — it silently does nothing,
and no error value of any kind is produced, contradicting the claim that
the calculator fails with an InvalidSource error rather than silently
doing nothing. -/
theorem C6_counterexample :
    fitImageToFrame imgNoDims frameDefault .cover = imgNoDims := rfl

/-- C6 as amended: when either native dimension is zero or unknown, the fit
is skipped: `fitImageToFrame` returns with the image — in particular its
scale and position — completely unmodified, and signals nothing (there is
no error channel; callers re-fit when dimensions resolve). -/
theorem C6_fit_skip_amended (img : FImage) (frame : Rect) (p : FitPolicy)
    (h : img.width.getD 0 = 0 ∨ img.height.getD 0 = 0) :
    fitImageToFrame img frame p = img := by
  show (if img.width.getD 0 = 0 ∨ img.height.getD 0 = 0 then img else _) = img
  rw [if_pos h]

/-- C6 witness: the unknown-width image is returned unchanged under
contain as well. -/
theorem C6_fit_skip_amended_witness :
    fitImageToFrame imgNoDims frameDefault .contain = imgNoDims :=
  C6_fit_skip_amended imgNoDims frameDefault .contain (Or.inl rfl)

/-- C7 counterexample: a direct width edit to 5 on the default 400 by 300
frame leaves visual width 5, below one grid unit (20), so the claimed
invariant does not survive field edits — `commitSize` clamps at 1, and no
snap runs after a panel edit. -/
theorem C7_counterexample :
    (commitSize frameDefault (some 5) none).getScaledWidth = 5 ∧
    (5 : ℚ) < 20 := by
  constructor
  · simp [commitSize, frameDefault, Rect.getScaledWidth]
    norm_num
  · norm_num

/-- C7 as amended: for a frame with nonzero base dimensions, grid snapping
(run on edit completion) restores visual width and height to at least one
grid unit (20); a direct width or height assignment via `commitSize` only
guarantees a lower bound of 1, and interactive resize and template load
enforce no lower bound at all. -/
theorem C7_minsize_amended (r : Rect) (hW : r.width ≠ 0) (hH : r.height ≠ 0) :
    GRID ≤ (snapToGrid r).getScaledWidth ∧
    GRID ≤ (snapToGrid r).getScaledHeight ∧
    (∀ w, 1 ≤ (commitSize r (some w) none).getScaledWidth) ∧
    (∀ h, 1 ≤ (commitSize r none (some h)).getScaledHeight) := by
  refine ⟨?_, ?_, ?_, ?_⟩
  · rw [snapToGrid_getScaledWidth r hW]; exact le_max_left _ _
  · rw [snapToGrid_getScaledHeight r hH]; exact le_max_left _ _
  · intro w; rw [commitSize_getScaledWidth r w hW]; exact le_max_left _ _
  · intro h; rw [commitSize_getScaledHeight r h hH]; exact le_max_left _ _

/-- C7 witness: on the default frame, snapping keeps the visual width at
least 20 and a direct width edit keeps it at least 1. -/
theorem C7_minsize_amended_witness :
    GRID ≤ (snapToGrid frameDefault).getScaledWidth ∧
    1 ≤ (commitSize frameDefault (some 5) none).getScaledWidth := by
  have h := C7_minsize_amended frameDefault (by norm_num [frameDefault])
    (by norm_num [frameDefault])
  exact ⟨h.1, h.2.2.1 5⟩

/-- C9: creating a frame on a 1200 by 800 canvas yields base size 400 by
300, scale 1, fit cover, grid-aligned position exactly (400, 260), and the
name "Frame n" where n is the current live frame count plus one. -/
theorem C9_onAddFrame_defaults (k : ℕ) (id : String) :
    (onAddFrame 1200 800 k id).1.left = 400 ∧
    (onAddFrame 1200 800 k id).1.top = 260 ∧
    (onAddFrame 1200 800 k id).1.width = 400 ∧
    (onAddFrame 1200 800 k id).1.height = 300 ∧
    (onAddFrame 1200 800 k id).1.scaleX = 1 ∧
    (onAddFrame 1200 800 k id).1.scaleY = 1 ∧
    (onAddFrame 1200 800 k id).2.fit = .cover ∧
    (onAddFrame 1200 800 k id).2.frameId = id ∧
    (onAddFrame 1200 800 k id).2.name = "Frame " ++ toString (k + 1) := by
  refine ⟨?_, ?_, rfl, rfl, rfl, rfl, rfl, rfl, rfl⟩
  · simp [onAddFrame, GRID, jsRound_eq_floor]
    norm_num
  · simp [onAddFrame, GRID, jsRound_eq_floor]
    norm_num

/-- The clip installed by `updateOneImage` is the frame's visual box with
the frame's corner radii, whether or not the image is re-fitted. -/
theorem updateOneImage_clipPath (frame : Rect) (d : FrameData) (refit : Bool)
    (img : FImage) :
    (updateOneImage frame d refit img).clipPath = some
      { left := frame.left, top := frame.top,
        width := frame.getScaledWidth, height := frame.getScaledHeight,
        rx := frame.rx, ry := frame.ry,
        absolutePositioned := true, originX := "left", originY := "top" } := by
  cases refit
  · rfl
  · show (fitImageToFrame (ensureImageClip img frame) frame d.fit).clipPath = _
    unfold fitImageToFrame
    dsimp only
    split <;> rfl

/-- C8: after `updateImagesForFrame` runs for a frame (as it does on every
move, resize, snap, or fit change), every image bound to that frame carries
a clip equal to the frame's current visual box — same left, top, visual
width, visual height — absolutely positioned in canvas coordinates and
independent of the image's own transform, with corner rounding matching the
frame's rx and ry exactly. -/
theorem C8_clip_equals_frame_box (frame : Rect) (d : FrameData) (refit : Bool)
    (imgs : List FImage) (img : FImage)
    (hmem : img ∈ updateImagesForFrame frame d refit imgs)
    (hbound : img.frameOf = some d.frameId) :
    img.clipPath = some
      { left := frame.left, top := frame.top,
        width := frame.getScaledWidth, height := frame.getScaledHeight,
        rx := frame.rx, ry := frame.ry,
        absolutePositioned := true, originX := "left", originY := "top" } := by
  obtain ⟨img0, hmem0, heq⟩ := List.mem_map.mp hmem
  by_cases h : img0.frameOf = some d.frameId
  · rw [if_pos h] at heq
    rw [← heq]
    exact updateOneImage_clipPath frame d refit img0
  · rw [if_neg h] at heq
    rw [← heq] at hbound
    exact absurd hbound h

/-- C8 witness: updating the one image bound to the concrete frame leaves
it clipped to that frame's visual box (33, 47, 400, 300) with radius 4. -/
theorem C8_clip_equals_frame_box_witness :
    imgOutEx.clipPath = some
      { left := 33, top := 47, width := 400, height := 300, rx := 4, ry := 4,
        absolutePositioned := true, originX := "left", originY := "top" } := by
  have h := C8_clip_equals_frame_box rectEx dEx true [imgBoundEx] imgOutEx
    (by simp [updateImagesForFrame, imgBoundEx, dEx, imgOutEx])
    (by simp [imgOutEx, updateOneImage, ensureImageClip, fitImageToFrame,
              imgBoundEx, dEx])
  rw [h]
  norm_num [rectEx, Rect.getScaledWidth, Rect.getScaledHeight]

/-- One serialized frame record reads back as a frame with the rounded
geometry at scale 1 and the identical metadata. -/
theorem readFrameRec_serializeFrameRec (f : Rect × FrameData) :
    readFrameRec (serializeFrameRec f) = some
      ({ left := (jsRound f.1.left : ℚ), top := (jsRound f.1.top : ℚ),
         width := (jsRound f.1.getScaledWidth : ℚ),
         height := (jsRound f.1.getScaledHeight : ℚ),
         scaleX := 1, scaleY := 1, rx := 4, ry := 4 }, f.2) := by
  obtain ⟨r, d⟩ := f
  obtain ⟨id, fitp, name⟩ := d
  cases fitp <;> rfl

/-- A serialized arrangement parses back as a version-1 template with the
same canvas size, background, and serialized frame records. -/
theorem parseTemplate_serializeTemplate (st : EditorState) :
    parseTemplate (serializeTemplate st) = some
      { canvasW := st.canvasW, canvasH := st.canvasH,
        background_url := st.background,
        frames := st.frames.map serializeFrameRec } := by
  obtain ⟨cw, ch, bg, fs, ims⟩ := st
  cases bg <;> rfl

/-- Rebuilt frames relate one-to-one, in order, to the original frames:
same id, position, visual size, fit and name, given integral geometry. -/
theorem roundtrip_forall2 (l : List (Rect × FrameData))
    (hint : ∀ f ∈ l, f.1.left.den = 1 ∧ f.1.top.den = 1 ∧
      f.1.getScaledWidth.den = 1 ∧ f.1.getScaledHeight.den = 1) :
    List.Forall₂ (fun g f =>
        g.2.frameId = f.2.frameId ∧ g.1.left = f.1.left ∧ g.1.top = f.1.top ∧
        g.1.getScaledWidth = f.1.getScaledWidth ∧
        g.1.getScaledHeight = f.1.getScaledHeight ∧
        g.2.fit = f.2.fit ∧ g.2.name = f.2.name)
      ((l.map serializeFrameRec).filterMap readFrameRec) l := by
  induction l with
  | nil => exact List.Forall₂.nil
  | cons f t ih =>
      simp only [List.map_cons, List.filterMap_cons, readFrameRec_serializeFrameRec]
      refine List.Forall₂.cons ?_ (ih fun x hx => hint x (List.mem_cons_of_mem _ hx))
      obtain ⟨h1, h2, h3, h4⟩ := hint f (List.mem_cons_self _ _)
      refine ⟨rfl, jsRound_den_one _ h1, jsRound_den_one _ h2, ?_, ?_, rfl, rfl⟩
      · show (jsRound f.1.getScaledWidth : ℚ) * 1 = f.1.getScaledWidth
        rw [mul_one]
        exact jsRound_den_one _ h3
      · show (jsRound f.1.getScaledHeight : ℚ) * 1 = f.1.getScaledHeight
        rw [mul_one]
        exact jsRound_den_one _ h4

/-- C3 counterexample: an arrangement whose frame sits at the fractional
position x = 1/2 does not survive the round trip — serialization rounds
coordinates with Math.round, so the rebuilt frame sits at x = 1. -/
theorem C3_counterexample :
    ((rebuildFromTemplate stEmpty (serializeTemplate stHalf)).1.frames.map
      fun f => f.1.left) = [1] ∧
    (stHalf.frames.map fun f => f.1.left) = [1/2] ∧ (1 : ℚ) ≠ 1/2 := by
  refine ⟨?_, rfl, by norm_num⟩
  simp [rebuildFromTemplate, serializeTemplate, parseTemplate, applyTemplate,
        readFrameRec, serializeFrameRec, stHalf, stEmpty, dEx, jProp,
        isObjectNonNull, asString, asArray, jsToNumber, fitName, List.lookup,
        Rect.getScaledWidth, Rect.getScaledHeight, jsRound_eq_floor]
  norm_num

/-- C3 as amended: serializing an arrangement whose frame positions and
visual sizes are whole numbers and deserializing the document reproduces
the canvas size, the background source, and frames identical in id,
position, visual size, fit policy and name, in the same order; fractional
geometry is reproduced only up to Math.round. -/
theorem C3_roundtrip_amended (st prior : EditorState)
    (hint : ∀ f ∈ st.frames, f.1.left.den = 1 ∧ f.1.top.den = 1 ∧
      f.1.getScaledWidth.den = 1 ∧ f.1.getScaledHeight.den = 1) :
    (rebuildFromTemplate prior (serializeTemplate st)).2 = .ok ∧
    (rebuildFromTemplate prior (serializeTemplate st)).1.canvasW = st.canvasW ∧
    (rebuildFromTemplate prior (serializeTemplate st)).1.canvasH = st.canvasH ∧
    (rebuildFromTemplate prior (serializeTemplate st)).1.background = st.background ∧
    List.Forall₂ (fun g f =>
        g.2.frameId = f.2.frameId ∧ g.1.left = f.1.left ∧ g.1.top = f.1.top ∧
        g.1.getScaledWidth = f.1.getScaledWidth ∧
        g.1.getScaledHeight = f.1.getScaledHeight ∧
        g.2.fit = f.2.fit ∧ g.2.name = f.2.name)
      (rebuildFromTemplate prior (serializeTemplate st)).1.frames st.frames := by
  have hr : rebuildFromTemplate prior (serializeTemplate st) =
      (applyTemplate { canvasW := st.canvasW, canvasH := st.canvasH,
                       background_url := st.background,
                       frames := st.frames.map serializeFrameRec }, .ok) := by
    unfold rebuildFromTemplate
    rw [parseTemplate_serializeTemplate st]
  rw [hr]
  exact ⟨rfl, rfl, rfl, rfl, roundtrip_forall2 st.frames hint⟩

/-- C3 witness: the integral arrangement with one contain frame at (40, 60)
and background bg.png round-trips to an identical arrangement. -/
theorem C3_roundtrip_amended_witness :
    (rebuildFromTemplate stEmpty (serializeTemplate stInt)).2 = .ok ∧
    (rebuildFromTemplate stEmpty (serializeTemplate stInt)).1.canvasW = stInt.canvasW ∧
    (rebuildFromTemplate stEmpty (serializeTemplate stInt)).1.canvasH = stInt.canvasH ∧
    (rebuildFromTemplate stEmpty (serializeTemplate stInt)).1.background = stInt.background ∧
    List.Forall₂ (fun g f =>
        g.2.frameId = f.2.frameId ∧ g.1.left = f.1.left ∧ g.1.top = f.1.top ∧
        g.1.getScaledWidth = f.1.getScaledWidth ∧
        g.1.getScaledHeight = f.1.getScaledHeight ∧
        g.2.fit = f.2.fit ∧ g.2.name = f.2.name)
      (rebuildFromTemplate stEmpty (serializeTemplate stInt)).1.frames stInt.frames :=
  C3_roundtrip_amended stInt stEmpty (by
    intro f hf
    simp only [stInt, List.mem_singleton] at hf
    subst hf
    refine ⟨?_, ?_, ?_, ?_⟩ <;>
      simp [Rect.getScaledWidth, Rect.getScaledHeight])

/-- C4 counterexample: loading the unrecognized document 5 aborts with the
unsupported-format outcome and leaves canvas, background and frames
untouched, but the previously bound images have already been cleared by the
load flow, so the prior arrangement is not left completely unchanged. -/
theorem C4_counterexample :
    (onLoadTemplate stWithImage (.jnum 5)).2 = .unsupportedFormat ∧
    (onLoadTemplate stWithImage (.jnum 5)).1.frames = stWithImage.frames ∧
    (onLoadTemplate stWithImage (.jnum 5)).1.images = [] ∧
    stWithImage.images ≠ [] :=
  ⟨rfl, rfl, rfl, by simp [stWithImage]⟩

/-- C4 as amended: for every document matching none of the recognized
shapes, the load fails with the unsupported-format outcome; canvas size,
background and frames are left exactly as they were, and no part of the
document is applied — but the bound images have already been cleared,
because the load flow clears images before validating the document. -/
theorem C4_unsupported_amended (st : EditorState) (doc : JVal)
    (h : parseTemplate doc = none) :
    onLoadTemplate st doc =
      ({ canvasW := st.canvasW, canvasH := st.canvasH,
         background := st.background, frames := st.frames, images := [] },
       .unsupportedFormat) := by
  unfold onLoadTemplate rebuildFromTemplate
  rw [h]

/-- C4 witness: loading the number 5 over the arrangement with one bound
image yields the unchanged frames with images cleared. -/
theorem C4_unsupported_amended_witness :
    onLoadTemplate stWithImage (.jnum 5) =
      ({ canvasW := stWithImage.canvasW, canvasH := stWithImage.canvasH,
         background := stWithImage.background, frames := stWithImage.frames,
         images := [] }, .unsupportedFormat) :=
  C4_unsupported_amended stWithImage (.jnum 5) rfl

/-- Filtering through an everywhere-defined partial map keeps the length. -/
theorem length_filterMap_of_isSome {α β : Type} (g : α → Option β) :
    ∀ l : List α, (∀ a ∈ l, (g a).isSome) → (l.filterMap g).length = l.length := by
  intro l
  induction l with
  | nil => intro _; rfl
  | cons a t ih =>
      intro h
      rw [List.filterMap_cons]
      obtain ⟨b, hb⟩ := Option.isSome_iff_exists.mp (h a (List.mem_cons_self a t))
      rw [hb]
      simp only [List.length_cons]
      rw [ih (fun x hx => h x (List.mem_cons_of_mem a hx))]

/-- C5 counterexample: a document that is a bare flat frame array with no
wrapper object is rejected as unsupported and changes nothing — it is not
deserialized successfully as the claim states. -/
theorem C5_counterexample :
    (rebuildFromTemplate stEmpty flatArrayDoc).2 = .unsupportedFormat ∧
    (rebuildFromTemplate stEmpty flatArrayDoc).1 = stEmpty :=
  ⟨rfl, rfl⟩

/-- C5 as amended: the legacy flat frame array is accepted only inside the
DB envelope, as an array under data.elements (itself carrying no version,
canvas, or background fields); such a document deserializes successfully,
producing one frame per well-formed record, in order, with a null
background and the canvas size taken from data.canvas_width and
data.canvas_height.  A bare top-level frame array is rejected. -/
theorem C5_flat_array_amended (st : EditorState) (w h : ℚ) (recs : List JVal)
    (hwf : ∀ r ∈ recs, (readFrameRec r).isSome) :
    (rebuildFromTemplate st (dbDoc w h recs)).2 = .ok ∧
    (rebuildFromTemplate st (dbDoc w h recs)).1.canvasW = w ∧
    (rebuildFromTemplate st (dbDoc w h recs)).1.canvasH = h ∧
    (rebuildFromTemplate st (dbDoc w h recs)).1.background = none ∧
    (rebuildFromTemplate st (dbDoc w h recs)).1.frames =
      recs.filterMap readFrameRec ∧
    ((rebuildFromTemplate st (dbDoc w h recs)).1.frames).length = recs.length :=
  ⟨rfl, rfl, rfl, rfl, rfl, length_filterMap_of_isSome readFrameRec recs hwf⟩

/-- C5 witness: a DB-envelope document with one well-formed record yields
one frame, a null background, and the envelope's canvas size. -/
theorem C5_flat_array_amended_witness :
    (rebuildFromTemplate stEmpty (dbDoc 1000 500 [goodRecJ])).2 = .ok ∧
    (rebuildFromTemplate stEmpty (dbDoc 1000 500 [goodRecJ])).1.canvasW = 1000 ∧
    (rebuildFromTemplate stEmpty (dbDoc 1000 500 [goodRecJ])).1.canvasH = 500 ∧
    (rebuildFromTemplate stEmpty (dbDoc 1000 500 [goodRecJ])).1.background = none ∧
    (rebuildFromTemplate stEmpty (dbDoc 1000 500 [goodRecJ])).1.frames =
      [goodRecJ].filterMap readFrameRec ∧
    ((rebuildFromTemplate stEmpty (dbDoc 1000 500 [goodRecJ])).1.frames).length =
      ([goodRecJ] : List JVal).length :=
  C5_flat_array_amended stEmpty 1000 500 [goodRecJ] (by
    intro r hr
    simp only [List.mem_singleton] at hr
    subst hr
    rfl)

end Editor
